import Mathlib

/-!
# Verification of the daoproject-frontend state slices

Shallow embedding of the three Redux state slices of the repository:
the wallet session slice (`src/redux/features/web3/webSlice.ts`), the
notification snackbar slice (`src/redux/features/snackbar/snackbarSlice.tsx`)
and the mural registry slice (an unnamed source file, `createSlice "murals"`).

Reducers become pure functions on explicit state records; the async thunks
become functions from an explicit provider environment to `Except`, where
`Except.error msg` stands for `rejectWithValue(e)` with `e.message = msg`.
Presentation-only fields of the snackbar state (the React action element,
anchor origin, transition component, severity) are constants in the source
reducers and carry no logic, so they are omitted from the record.
-/

set_option autoImplicit false

namespace DaoProject

/-- Truthiness of an optional string as JavaScript `if (x)` sees it:
`null`/`undefined` and the empty string are falsy. -/
def truthy : Option String → Bool
  | none => false
  | some s => !s.isEmpty

/-! ## Network utilities

The module `src/utils/network` (`ChainId`, `Network`, `requestAccounts`,
`getAccounts`, `selectNetwork`) is imported by the web3 slice but its file is
not part of the snapshot, so these definitions are modelled from the spec. -/

/-- Modelled from the spec: the network mapping table is a pure function
`chainId -> {name, isSupported}` (the file `src/utils/network` defining
`Network` is missing from the snapshot). -/
structure Network where
  name : String
  isSupported : Bool
deriving Repr, DecidableEq

/-- Modelled from the spec: `selectNetwork` is a static lookup table from a
provider-supplied chain identifier to a network descriptor (the file
`src/utils/network` defining it is missing from the snapshot). Mainnet and the
Rinkeby testnet required by `MintNFTButton` are supported; any other chain
identifier maps to an unsupported descriptor without throwing. -/
def selectNetwork (chainId : String) : Network :=
  if chainId = "0x1" then ⟨"Ethereum Mainnet", true⟩
  else if chainId = "0x4" then ⟨"Rinkeby Testnet", true⟩
  else ⟨"Unknown", false⟩

/-- Result of a best-effort ENS/avatar lookup for one address; per the spec
the fields are null when the lookup fails, the lookup itself does not throw. -/
structure Profile where
  ens : Option String
  avatar : Option String
deriving Repr, DecidableEq

/-- The injected browser wallet provider (`window.ethereum`): its current
chain identifier, the outcome of its account-access prompt
(`Except.error msg` models a thrown provider error such as a user rejection),
and the profile lookup backing `getAccounts`. -/
structure Ethereum where
  chainId : String
  accountsResult : Except String (List String)
  profile : String → Profile

/-- The ambient browser environment: `window.ethereum` may be absent. -/
structure Env where
  ethereum : Option Ethereum

/-- Modelled from the spec: `requestAccounts` (missing `src/utils/network`)
asks the provider for account access; it throws when the provider is absent
or when the provider itself throws (e.g. the user rejects the prompt). -/
def requestAccounts (env : Env) : Except String (List String) :=
  match env.ethereum with
  | none => Except.error "No provider"
  | some eth => eth.accountsResult

/-! ## Wallet session slice (`webSlice.ts`) -/

/-- The `Web3Data` interface of `webSlice.ts`: `ChainId` is a string chain
identifier; `chainId` and `network` are optional fields absent initially. -/
structure Web3Data where
  address : Option String
  ens : Option String
  avatar : Option String
  chainId : Option String := none
  network : Option Network := none
deriving Repr, DecidableEq

/-- Modelled from the spec: `getAccounts` (missing `src/utils/network`)
resolves the profile of one address best-effort — ENS name and avatar are
null on lookup failure, the call itself does not throw — and returns them
together with the address, matching the `Web3Data` payload shape used by
`connectWallet`. -/
def getAccounts (eth : Ethereum) (a : String) : Web3Data :=
  { address := some a, ens := (eth.profile a).ens, avatar := (eth.profile a).avatar }

/-- The `Web3State` interface. The TS fields `error?: string` and
`isConnected?: boolean` are optional; an absent `isConnected` is observed as
false by every truthiness check, so it is a `Bool` defaulting to `false`. -/
structure Web3State where
  data : Web3Data
  loading : Bool
  error : Option String := none
  isMetamask : Bool
  isConnected : Bool := false
deriving Repr, DecidableEq

/-- `initialState` of the web3 slice. -/
def initialState : Web3State :=
  { data := { address := none, ens := none, avatar := none }
    loading := false
    isMetamask := false }

/-- The `connectWallet` thunk body. The `router` component of the payload
carries no session logic (the routing code is commented out in the source)
and is dropped. Order of effects in the source: provider presence check,
`requestAccounts`, account-count check, `selectNetwork` on the provider's
chain id, `getAccounts` on the first account, then the snackbar dispatch
(handled in `connectStep`). -/
def connectWallet (env : Env) : Except String Web3Data :=
  match env.ethereum with
  | none => Except.error "Must install metamask"
  | some eth =>
    match eth.accountsResult with
    | Except.error e => Except.error e
    | Except.ok accounts =>
      match accounts with
      | [] => Except.error "User denied permission"
      | a :: _ =>
        let network := selectNetwork eth.chainId
        let accountData := getAccounts eth a
        Except.ok { accountData with network := some network }

/-- Payload of a fulfilled `changeAccount`. -/
structure ChangeAccountPayload where
  ens : Option String
  avatar : Option String
  address : Option String
deriving Repr, DecidableEq

/-- The `changeAccount` thunk body: with no provider it resolves to the spread
of `initialState.data`; otherwise it resolves the profile only when the
provider chain is mainnet (`"0x1"`) and the new address is truthy, and in
every case passes the given address through. -/
def changeAccount (env : Env) (address : Option String) :
    Except String ChangeAccountPayload :=
  match env.ethereum with
  | none => Except.ok { ens := none, avatar := none, address := none }
  | some eth =>
    if eth.chainId = "0x1" && truthy address then
      let d := getAccounts eth (address.getD "")
      Except.ok { ens := d.ens, avatar := d.avatar, address := address }
    else
      Except.ok { ens := none, avatar := none, address := address }

/-- Payload of a fulfilled `changeNetwork`. -/
structure ChangeNetworkPayload where
  network : Option Network
  ens : Option String
  avatar : Option String
  chainId : Option String
deriving Repr, DecidableEq

/-- The `changeNetwork` thunk body: it re-requests accounts (which throws if
the provider is absent or the prompt is rejected — the thrown error becomes
`rejectWithValue`), resolves the profile only on mainnet with at least one
account, and maps the new chain identifier through `selectNetwork`. -/
def changeNetwork (env : Env) (chainId : String) :
    Except String ChangeNetworkPayload :=
  match env.ethereum with
  | none => Except.error "No provider"
  | some eth =>
    match eth.accountsResult with
    | Except.error e => Except.error e
    | Except.ok accounts =>
      let p : Profile :=
        if eth.chainId = "0x1" && !accounts.isEmpty then
          eth.profile (accounts.headD "")
        else ⟨none, none⟩
      Except.ok { network := some (selectNetwork chainId)
                  ens := p.ens, avatar := p.avatar, chainId := some chainId }

/-- The `connectWallet.fulfilled` case reducer: clears `loading` and `error`,
replaces `data` with the payload, and sets `isConnected` only when the
payload address is truthy. -/
def connectFulfilled (s : Web3State) (payload : Web3Data) : Web3State :=
  { s with loading := false
           data := payload
           error := none
           isConnected := if truthy payload.address then true else s.isConnected }

/-- The `changeAccount.fulfilled` case reducer: writes `ens`, `avatar` and
`address` from the payload; it touches neither `loading`, `error` nor
`isConnected`. -/
def changeAccountFulfilled (s : Web3State) (p : ChangeAccountPayload) : Web3State :=
  { s with data := { s.data with ens := p.ens, avatar := p.avatar, address := p.address } }

/-- The `changeNetwork.fulfilled` case reducer: writes `ens`, `avatar`,
`chainId` and `network` from the payload. -/
def changeNetworkFulfilled (s : Web3State) (p : ChangeNetworkPayload) : Web3State :=
  { s with data := { s.data with ens := p.ens, avatar := p.avatar
                                 chainId := p.chainId, network := p.network } }

/-- The pending matcher shared by all three thunks: sets `loading`. -/
def pendingMatcher (s : Web3State) : Web3State :=
  { s with loading := true }

/-- The rejected matcher shared by all three thunks: with no payload it
returns unchanged; otherwise it clears `loading` and stores the payload's
`message` in `error`. -/
def rejectedMatcher (s : Web3State) (payload : Option String) : Web3State :=
  match payload with
  | none => s
  | some message => { s with loading := false, error := some message }

/-- The `disconnectWallet` reducer: resets `data` to `initialState.data` and
sets `isConnected := false` (leaving `loading`, `error`, `isMetamask` as is). -/
def disconnectWallet (s : Web3State) : Web3State :=
  { s with data := initialState.data, isConnected := false }

/-! ## Snackbar slice (`snackbarSlice.tsx`)

Only the logic-bearing fields of the `Snackbar` interface are kept; the
constant presentation fields (`action`, `anchorOrigin`, `severity`,
`TransitionComponent`) carry no state logic. -/

/-- One queue entry, `SnackbarMessage`: it holds only a numeric key (a
timestamp); the displayed text lives in the single `message` field of the
`Snackbar` state, not in the entry. -/
structure SnackbarMessage where
  key : Nat
deriving Repr, DecidableEq

/-- The logic-bearing part of the `Snackbar` state. -/
structure Snackbar where
  message : String
  «open» : Bool
  snackPack : List SnackbarMessage
  key : Option Nat := none
  autoHideDuration : Option Nat
deriving Repr, DecidableEq

/-- `initialState` of the snackbar slice. -/
def snackbarInitialState : Snackbar :=
  { message := "", «open» := false, snackPack := [], autoHideDuration := some 6000 }

/-- `handleWalletActions(state, message)`: reads `time = new Date().getTime()`
(the `time` argument here), stores `message`, and ASSIGNS
`state.snackPack = [{ key: time }]` — a wholesale replacement of the pack by
a single fresh entry, not an append. `open` and `key` are untouched. -/
def handleWalletActions (s : Snackbar) (time : Nat) (message : String) : Snackbar :=
  { s with autoHideDuration := some 6000
           message := message
           snackPack := [{ key := time }] }

/-- The `walletConnected` reducer. -/
def walletConnected (s : Snackbar) (time : Nat) : Snackbar :=
  handleWalletActions s time "Wallet connected"

/-- The `walletDisconnected` reducer. -/
def walletDisconnected (s : Snackbar) (time : Nat) : Snackbar :=
  handleWalletActions s time "Wallet disconnected"

/-- The `closeSnackbar` reducer: clears only the `open` flag. -/
def closeSnackbar (s : Snackbar) : Snackbar :=
  { s with «open» := false }

/-- The `setSnackPack` reducer: reads `state.snackPack[0].key` (out of bounds
on an empty pack — `none` here), then drops the head and opens the snackbar. -/
def setSnackPack (s : Snackbar) : Option Snackbar :=
  match s.snackPack with
  | [] => none
  | m :: rest => some { s with key := some m.key, snackPack := rest, «open» := true }

/-- The `exited` reducer: nulls the active key. -/
def exited (s : Snackbar) : Snackbar :=
  { s with key := none }

/-! ## Mural registry slice (unnamed source file, `createSlice "murals"`) -/

/-- A `Plot` record together with its `imageData` raster (opaque here). -/
structure Plot where
  id : Nat
  artist : Option String
  width : Nat
  height : Nat
  isComplete : Bool
  imageData : Option String
deriving Repr, DecidableEq

/-- A `Mural` record together with its plots, as stored in `MuralsState`. -/
structure Mural where
  id : String
  width : Nat
  height : Nat
  columns : Nat
  rows : Nat
  artists : List String
  created_at : Nat
  plots : List Plot
deriving Repr, DecidableEq

/-- The `MuralsState` interface. -/
structure MuralsState where
  murals : List Mural
  loading : Bool
deriving Repr, DecidableEq

/-- `initialState` of the murals slice. -/
def muralsInitialState : MuralsState :=
  { murals := [], loading := true }

/-- The `createMural` reducer: pushes the payload onto a copy of the list. -/
def createMural (s : MuralsState) (payload : Mural) : MuralsState :=
  { s with murals := s.murals ++ [payload] }

/-- The `getMurals` reducer: wholesale-replaces the collection and clears the
loading flag. -/
def getMurals (s : MuralsState) (payload : List Mural) : MuralsState :=
  { murals := payload, loading := false }

/-- The `updatePlot` reducer: `state.murals = [mural]` — it replaces the
whole collection with the single mural of the payload. -/
def updatePlot (s : MuralsState) (mural : Mural) : MuralsState :=
  { s with murals := [mural] }

/-! ## End-to-end dispatch steps

A dispatched thunk fires `pending`, runs its body, then fires `fulfilled` or
`rejected` (whose payload is the message given to `rejectWithValue`). The
connect step also returns the list of notification texts dispatched to the
snackbar slice during the thunk body, to state "exactly one notification was
enqueued" claims. -/

/-- Dispatching `connectWallet`: pending, thunk body, fulfilled/rejected; on
the success path the thunk dispatches `walletConnected()` before resolving. -/
def connectStep (env : Env) (time : Nat) (w : Web3State) (sb : Snackbar) :
    Web3State × Snackbar × List String :=
  let w1 := pendingMatcher w
  match connectWallet env with
  | Except.ok payload =>
      (connectFulfilled w1 payload, walletConnected sb time, ["Wallet connected"])
  | Except.error e => (rejectedMatcher w1 (some e), sb, [])

/-- Dispatching `changeAccount`. -/
def changeAccountStep (env : Env) (address : Option String) (w : Web3State) :
    Web3State :=
  let w1 := pendingMatcher w
  match changeAccount env address with
  | Except.ok p => changeAccountFulfilled w1 p
  | Except.error e => rejectedMatcher w1 (some e)

/-- Dispatching `changeNetwork`. -/
def changeNetworkStep (env : Env) (chainId : String) (w : Web3State) :
    Web3State :=
  let w1 := pendingMatcher w
  match changeNetwork env chainId with
  | Except.ok p => changeNetworkFulfilled w1 p
  | Except.error e => rejectedMatcher w1 (some e)

/-- Modelled from the spec: the `disconnect()` operation resets the session
and signals the "Wallet disconnected" notification. The component that
dispatches `walletDisconnected` alongside `disconnectWallet` is not in the
snapshot; per the spec the two dispatches form one operation. -/
def disconnectStep (time : Nat) (w : Web3State) (sb : Snackbar) :
    Web3State × Snackbar :=
  (disconnectWallet w, walletDisconnected sb time)

/-- The session invariant of the spec: `isConnected` true implies `address`
is present (non-null). -/
def sessionInvariant (s : Web3State) : Bool :=
  !s.isConnected || s.data.address.isSome

/-! ## Concrete environments used to evaluate the theorems -/

/-- A happy-path provider: mainnet, one granted account, empty profile. -/
def happyEth : Ethereum :=
  { chainId := "0x1"
    accountsResult := Except.ok ["0xabc"]
    profile := fun _ => { ens := none, avatar := none } }

/-- A happy-path environment containing `happyEth`. -/
def happyEnv : Env := { ethereum := some happyEth }

/-- An environment with no injected provider (`window.ethereum` absent). -/
def noProviderEnv : Env := { ethereum := none }

/-- A provider whose account-access prompt throws a user rejection. -/
def deniedEnv : Env :=
  { ethereum := some { chainId := "0x1"
                       accountsResult := Except.error "User denied permission"
                       profile := fun _ => { ens := none, avatar := none } } }

/-- The session state reached by a successful connect from the initial state. -/
def connectedState : Web3State :=
  (connectStep happyEnv 1 initialState snackbarInitialState).1

/-- The C2 scenario: enqueue "A" (at time 1), enqueue "B" (at time 2), then
dequeue the head. -/
def fifoScenario : Option Snackbar :=
  setSnackPack (handleWalletActions (handleWalletActions snackbarInitialState 1 "A") 2 "B")

/-! ## Theorems -/

/-- C2 counterexample: after enqueue "A" then enqueue "B" the pack holds only
the second entry (the first was overwritten, so enqueue does not append), and
after the dequeue the displayed message is "B" — not "A" as the claim states —
while the pack is empty rather than containing the "B" entry. -/
theorem fifo_counterexample :
    (handleWalletActions (handleWalletActions snackbarInitialState 1 "A") 2 "B").snackPack
      = [{ key := 2 }] ∧
    fifoScenario = some { message := "B", «open» := true, snackPack := [],
                          key := some 2, autoHideDuration := some 6000 } ∧
    ¬ (fifoScenario.map Snackbar.message = some "A") := by
  decide

/-- C2 (amended): `enqueue(text)` REPLACES the pack with the single fresh
entry `{key: now()}` and overwrites the single `message` field with `text`
(entries carry no text), so the pack never holds more than one entry and only
the last enqueued text survives; `dequeueNext` pops that head and activates
its key. In particular after enqueue "A", enqueue "B", `dequeueNext()`, the
displayed message is "B" and the pack is empty. -/
theorem enqueue_replaces_pack (s : Snackbar) (time : Nat) (text : String) :
    (handleWalletActions s time text).snackPack = [{ key := time }] ∧
    (handleWalletActions s time text).message = text ∧
    fifoScenario = some { message := "B", «open» := true, snackPack := [],
                          key := some 2, autoHideDuration := some 6000 } := by
  exact ⟨rfl, rfl, by decide⟩

/-- C7: `updatePlot` (the registry's `replaceOne`) replaces the entire mural
collection of any registry state with the one-element collection holding the
payload mural. -/
theorem update_plot_replaces_collection (s : MuralsState) (m : Mural) :
    (updatePlot s m).murals = [m] :=
  rfl

/-- C9: `closeSnackbar` (dismiss) clears only the `open` flag, leaving the
pack and the active key unchanged; `exited` (clearActive) nulls the active
key; the enqueue reducers never touch the key and a successful `setSnackPack`
always sets it to a present key — so only `exited` nulls it. -/
theorem dismiss_frame (s t : Snackbar) (h : setSnackPack s = some t) :
    (closeSnackbar s).«open» = false ∧
    (closeSnackbar s).snackPack = s.snackPack ∧
    (closeSnackbar s).key = s.key ∧
    (exited s).key = none ∧
    (∀ n m, (handleWalletActions s n m).key = s.key) ∧
    t.key.isSome = true := by
  refine ⟨rfl, rfl, rfl, rfl, fun n m => rfl, ?_⟩
  cases hs : s.snackPack with
  | nil => simp [setSnackPack, hs] at h
  | cons hd tl =>
    simp only [setSnackPack, hs] at h
    cases h
    rfl

/-- C9 witness: the frame conditions evaluated on a one-entry snackbar. -/
theorem dismiss_frame_witness :
    (closeSnackbar (handleWalletActions snackbarInitialState 1 "A")).«open» = false ∧
    (exited (handleWalletActions snackbarInitialState 1 "A")).key = none := by
  have h := dismiss_frame (handleWalletActions snackbarInitialState 1 "A")
    { message := "A", «open» := true, snackPack := [], key := some 1,
      autoHideDuration := some 6000 } (by decide)
  exact ⟨h.1, h.2.2.2.1⟩

/-- C10: `setSnackPack` (dequeueNext) succeeds exactly on a non-empty pack;
on the empty pack the head lookup is out of bounds and the embedding returns
`none`, so the success branch requires a non-empty queue. -/
theorem dequeue_requires_nonempty (s : Snackbar) :
    (setSnackPack s).isSome = true ↔ s.snackPack ≠ [] := by
  cases hs : s.snackPack <;> simp [setSnackPack, hs]

/-- C10 witness: on the (empty) initial snackbar state the equivalence holds
and both sides are false. -/
theorem dequeue_requires_nonempty_witness :
    ((setSnackPack snackbarInitialState).isSome = true ↔
      snackbarInitialState.snackPack ≠ []) ∧
    setSnackPack snackbarInitialState = none :=
  ⟨dequeue_requires_nonempty snackbarInitialState, rfl⟩

/-- C1: a successful `connect()` — provider present and the prompt granting
at least one (nonempty) account — leaves the session connected with a
non-null address and `loading = false`, and enqueues exactly one notification,
with text "Wallet connected". -/
theorem connect_success_postcondition (env : Env) (eth : Ethereum)
    (a : String) (rest : List String) (time : Nat) (w : Web3State) (sb : Snackbar)
    (hEth : env.ethereum = some eth)
    (hAcc : eth.accountsResult = Except.ok (a :: rest))
    (hA : a.isEmpty = false) :
    (connectStep env time w sb).1.isConnected = true ∧
    (connectStep env time w sb).1.data.address = some a ∧
    (connectStep env time w sb).1.loading = false ∧
    (connectStep env time w sb).2.2 = ["Wallet connected"] ∧
    (connectStep env time w sb).2.1.message = "Wallet connected" ∧
    (connectStep env time w sb).2.1.snackPack.length = 1 := by
  simp [connectStep, connectWallet, hEth, hAcc, connectFulfilled, pendingMatcher,
    getAccounts, truthy, hA, walletConnected, handleWalletActions]

/-- C1 witness: the postcondition evaluated on the happy-path environment. -/
theorem connect_success_postcondition_witness :
    happyEnv.ethereum = some happyEth ∧
    happyEth.accountsResult = Except.ok ("0xabc" :: []) ∧
    (connectStep happyEnv 1 initialState snackbarInitialState).1.isConnected = true ∧
    (connectStep happyEnv 1 initialState snackbarInitialState).1.data.address = some "0xabc" ∧
    (connectStep happyEnv 1 initialState snackbarInitialState).1.loading = false ∧
    (connectStep happyEnv 1 initialState snackbarInitialState).2.2 = ["Wallet connected"] := by
  have h := connect_success_postcondition happyEnv happyEth "0xabc" [] 1
    initialState snackbarInitialState rfl rfl rfl
  exact ⟨rfl, rfl, h.1, h.2.1, h.2.2.1, h.2.2.2.1⟩

/-- C5: a `connect()` dispatched while no provider is present rejects with
the message "Must install metamask", which the rejected matcher stores in the
session error field; from a disconnected state `isConnected` stays false,
`loading` is cleared, and no notification is enqueued. -/
theorem connect_no_provider (env : Env) (time : Nat) (w : Web3State) (sb : Snackbar)
    (hNo : env.ethereum = none) (hConn : w.isConnected = false) :
    (connectStep env time w sb).1.error = some "Must install metamask" ∧
    (connectStep env time w sb).1.isConnected = false ∧
    (connectStep env time w sb).1.loading = false ∧
    (connectStep env time w sb).2.2 = [] := by
  simp [connectStep, connectWallet, hNo, rejectedMatcher, pendingMatcher, hConn]

/-- C5 witness: the failed-connect postcondition on the provider-less
environment from the initial state. -/
theorem connect_no_provider_witness :
    noProviderEnv.ethereum = none ∧ initialState.isConnected = false ∧
    (connectStep noProviderEnv 1 initialState snackbarInitialState).1.error
      = some "Must install metamask" ∧
    (connectStep noProviderEnv 1 initialState snackbarInitialState).1.isConnected = false := by
  have h := connect_no_provider noProviderEnv 1 initialState snackbarInitialState rfl rfl
  exact ⟨rfl, rfl, h.1, h.2.1⟩

/-- C6: from any session state, `disconnect()` resets the session data to the
initial defaults, sets `isConnected := false`, and signals the queue with a
"Wallet disconnected" entry. -/
theorem disconnect_postcondition (time : Nat) (w : Web3State) (sb : Snackbar) :
    (disconnectStep time w sb).1.data = initialState.data ∧
    (disconnectStep time w sb).1.isConnected = false ∧
    (disconnectStep time w sb).2.message = "Wallet disconnected" ∧
    (disconnectStep time w sb).2.snackPack = [{ key := time }] := by
  exact ⟨rfl, rfl, rfl, rfl⟩

/-- C3 counterexample: from a reachable connected state, dispatching
`changeAccount` while the provider is absent fulfills with the spread of
`initialState.data`, nulling the address while `isConnected` stays true —
the invariant "isConnected implies address present" is broken. -/
theorem session_invariant_counterexample :
    connectedState.isConnected = true ∧
    connectedState.data.address = some "0xabc" ∧
    (changeAccountStep noProviderEnv (some "0xdef") connectedState).isConnected = true ∧
    (changeAccountStep noProviderEnv (some "0xdef") connectedState).data.address = none ∧
    sessionInvariant (changeAccountStep noProviderEnv (some "0xdef") connectedState) = false := by
  decide

/-- C3 (amended): the invariant `isConnected → address present` is preserved
by every connect step (any outcome), every changeNetwork step (any outcome)
and by disconnect; changeAccount preserves it only when the provider is
present and the new address is non-null — with a null payload address it can
break the invariant (see the counterexample). -/
theorem session_invariant_preserved (env : Env) (w : Web3State) (sb : Snackbar)
    (time : Nat) (chainId : String) (addr : Option String)
    (hw : sessionInvariant w = true) :
    sessionInvariant (connectStep env time w sb).1 = true ∧
    sessionInvariant (changeNetworkStep env chainId w) = true ∧
    sessionInvariant (disconnectStep time w sb).1 = true ∧
    (env.ethereum.isSome = true → addr.isSome = true →
      sessionInvariant (changeAccountStep env addr w) = true) := by
  refine ⟨?_, ?_, ?_, ?_⟩
  · cases hEth : env.ethereum with
    | none =>
      simpa [connectStep, connectWallet, hEth, rejectedMatcher, pendingMatcher,
        sessionInvariant] using hw
    | some eth =>
      cases hAcc : eth.accountsResult with
      | error e =>
        simpa [connectStep, connectWallet, hEth, hAcc, rejectedMatcher,
          pendingMatcher, sessionInvariant] using hw
      | ok accounts =>
        cases accounts with
        | nil =>
          simpa [connectStep, connectWallet, hEth, hAcc, rejectedMatcher,
            pendingMatcher, sessionInvariant] using hw
        | cons a rest =>
          simp [connectStep, connectWallet, hEth, hAcc, connectFulfilled,
            pendingMatcher, sessionInvariant, getAccounts]
  · cases hEth : env.ethereum with
    | none =>
      simpa [changeNetworkStep, changeNetwork, hEth, rejectedMatcher,
        pendingMatcher, sessionInvariant] using hw
    | some eth =>
      cases hAcc : eth.accountsResult with
      | error e =>
        simpa [changeNetworkStep, changeNetwork, hEth, hAcc, rejectedMatcher,
          pendingMatcher, sessionInvariant] using hw
      | ok accounts =>
        simpa [changeNetworkStep, changeNetwork, hEth, hAcc,
          changeNetworkFulfilled, pendingMatcher, sessionInvariant] using hw
  · simp [disconnectStep, disconnectWallet, sessionInvariant]
  · intro h1 h2
    obtain ⟨eth, hEth⟩ := Option.isSome_iff_exists.mp h1
    obtain ⟨a, ha⟩ := Option.isSome_iff_exists.mp h2
    subst ha
    by_cases hc : (eth.chainId = "0x1" && truthy (some a)) = true
    · simp [changeAccountStep, changeAccount, hEth, hc, changeAccountFulfilled,
        pendingMatcher, sessionInvariant]
    · simp [changeAccountStep, changeAccount, hEth, hc, changeAccountFulfilled,
        pendingMatcher, sessionInvariant]

/-- C3 (amended) witness: the preserved-invariant conclusions evaluated on
the happy-path environment from the initial state. -/
theorem session_invariant_preserved_witness :
    sessionInvariant initialState = true ∧
    sessionInvariant (connectStep happyEnv 1 initialState snackbarInitialState).1 = true ∧
    sessionInvariant (changeNetworkStep happyEnv "0x4" initialState) = true ∧
    sessionInvariant (disconnectStep 1 initialState snackbarInitialState).1 = true ∧
    sessionInvariant (changeAccountStep happyEnv (some "0xdef") initialState) = true := by
  have h := session_invariant_preserved happyEnv initialState snackbarInitialState
    1 "0x4" (some "0xdef") (by decide)
  exact ⟨by decide, h.1, h.2.1, h.2.2.1, h.2.2.2 (by decide) (by decide)⟩

/-- C4 counterexample: dispatching `changeNetwork` from a reachable connected
state (whose error field is unset) while the account re-request throws makes
the thunk reject, and the shared rejected matcher SETS the session error
field — the error is not swallowed into null profile fields. -/
theorem change_error_counterexample :
    connectedState.error = none ∧
    (changeNetworkStep deniedEnv "0x89" connectedState).error
      = some "User denied permission" := by
  decide

/-- C4 (amended): `changeAccount` indeed never rejects — provider absence and
off-mainnet conditions degrade to null profile fields and its step leaves the
session error field untouched; `changeNetwork`, however, rejects whenever the
account re-request throws, and the shared rejected matcher then writes the
thrown message into the session error field (while `address` and
`isConnected` are left unchanged). -/
theorem change_account_never_fails (env : Env) (addr : Option String)
    (w : Web3State) (chainId : String) (e : String)
    (hfail : requestAccounts env = Except.error e) :
    (∃ p, changeAccount env addr = Except.ok p) ∧
    (changeAccountStep env addr w).error = w.error ∧
    (changeNetworkStep env chainId w).error = some e ∧
    (changeNetworkStep env chainId w).data.address = w.data.address ∧
    (changeNetworkStep env chainId w).isConnected = w.isConnected := by
  refine ⟨?_, ?_, ?_⟩
  · cases hEth : env.ethereum with
    | none => simp [changeAccount, hEth]
    | some eth =>
      by_cases hc : (eth.chainId = "0x1" && truthy addr) = true
      · simp [changeAccount, hEth, hc]
      · simp [changeAccount, hEth, hc]
  · cases hEth : env.ethereum with
    | none =>
      simp [changeAccountStep, changeAccount, hEth, changeAccountFulfilled,
        pendingMatcher]
    | some eth =>
      by_cases hc : (eth.chainId = "0x1" && truthy addr) = true
      · simp [changeAccountStep, changeAccount, hEth, hc, changeAccountFulfilled,
          pendingMatcher]
      · simp [changeAccountStep, changeAccount, hEth, hc, changeAccountFulfilled,
          pendingMatcher]
  · cases hEth : env.ethereum with
    | none =>
      simp only [requestAccounts, hEth] at hfail
      rw [Except.error.injEq] at hfail
      subst hfail
      simp [changeNetworkStep, changeNetwork, hEth, rejectedMatcher, pendingMatcher]
    | some eth =>
      have hAcc : eth.accountsResult = Except.error e := by
        simpa [requestAccounts, hEth] using hfail
      simp [changeNetworkStep, changeNetwork, hEth, hAcc, rejectedMatcher,
        pendingMatcher]

/-- C4 (amended) witness: evaluated on the rejected-prompt environment from
the initial state. -/
theorem change_account_never_fails_witness :
    requestAccounts deniedEnv = Except.error "User denied permission" ∧
    (∃ p, changeAccount deniedEnv (some "0xdef") = Except.ok p) ∧
    (changeAccountStep deniedEnv (some "0xdef") initialState).error = initialState.error ∧
    (changeNetworkStep deniedEnv "0x89" initialState).error
      = some "User denied permission" := by
  have h := change_account_never_fails deniedEnv (some "0xdef") initialState
    "0x89" "User denied permission" rfl
  exact ⟨rfl, h.1, h.2.1, h.2.2.1⟩

/-- C8: `changeNetwork(chainId)` with a chain id that maps to an unsupported
network still fulfills (the account re-request succeeding), without touching
the session error field, and the resulting session network descriptor has
`isSupported = false`. -/
theorem change_network_unsupported (env : Env) (eth : Ethereum)
    (accounts : List String) (chainId : String) (w : Web3State)
    (hEth : env.ethereum = some eth)
    (hAcc : eth.accountsResult = Except.ok accounts)
    (hUnsup : (selectNetwork chainId).isSupported = false) :
    (∃ p, changeNetwork env chainId = Except.ok p) ∧
    (changeNetworkStep env chainId w).data.network = some (selectNetwork chainId) ∧
    (∃ n, (changeNetworkStep env chainId w).data.network = some n ∧
      n.isSupported = false) ∧
    (changeNetworkStep env chainId w).error = w.error := by
  refine ⟨?_, ?_, ?_, ?_⟩
  · simp [changeNetwork, hEth, hAcc]
  · simp [changeNetworkStep, changeNetwork, hEth, hAcc, changeNetworkFulfilled,
      pendingMatcher]
  · exact ⟨selectNetwork chainId,
      by simp [changeNetworkStep, changeNetwork, hEth, hAcc,
        changeNetworkFulfilled, pendingMatcher], hUnsup⟩
  · simp [changeNetworkStep, changeNetwork, hEth, hAcc, changeNetworkFulfilled,
      pendingMatcher]

/-- C8 witness: switching the happy-path session to the unknown chain `0x89`
fulfills with an unsupported network descriptor and no error. -/
theorem change_network_unsupported_witness :
    (selectNetwork "0x89").isSupported = false ∧
    (changeNetworkStep happyEnv "0x89" initialState).data.network
      = some (selectNetwork "0x89") ∧
    (changeNetworkStep happyEnv "0x89" initialState).error = initialState.error := by
  have h := change_network_unsupported happyEnv happyEth ["0xabc"] "0x89"
    initialState rfl rfl rfl
  exact ⟨rfl, h.2.1, h.2.2.2⟩

end DaoProject
